import Mathlib

/-!
Shallow embedding of the `ktool` command-line utility (files `ktool/cli.py`,
`ktool/config.py`, `ktool/kube.py`) and proofs about its argument parser,
pod classifier, pod filter and configuration defaults.

Modelling conventions:
* Python `Optional[str]` / absent dictionary keys become `Option String`.
* Python dictionaries with string keys become association lists
  `List (String × String)`; `dict.get(k, d)` becomes `dictGetD`.
* Python truthiness on strings (`if not tag`, `ns or default`) is modelled
  explicitly: `none` and `some ""` are falsy.
* A waiting / terminated sub-state dictionary is truthy exactly when it is
  present and non-empty; this is modelled by `Option WaitingD` /
  `Option TermD`, where `none` stands for an absent, null or empty
  dictionary and `some _` for a truthy one.
* Side effects (console printing, process exit, the external `kubectl`
  call) are reified: the pod list normally fetched by `get_pods_json` is a
  parameter, and the observable outcome of `pods_impl` is a `PodsOutcome`
  value recording either the no-match notice with its exit code or the
  rendered table with its optional summary lines.
* Python's `re.search` (standard library, not repository code) is a
  parameter `research : String → String → Bool` of the filtering
  functions; `research pat nm = true` means `re.search(pat, nm)` succeeds.
-/

namespace Ktool

/-- Configuration record, from `config.py` (`KToolConfig` dataclass). -/
structure KToolConfig where
  default_namespace : String
  contexts : List (String × String)
  services : List (String × String)
deriving DecidableEq, Repr

/-- Python `d.get(k, dflt)` for a string-keyed dictionary modelled as an
association list. -/
def dictGetD (d : List (String × String)) (k dflt : String) : String :=
  match d.find? (fun p => p.1 == k) with
  | some p => p.2
  | none => dflt

/-- The configuration returned by `load_config` when the config file is
absent (`config.py`, the early-return branch of `load_config`). -/
def load_config_absent : KToolConfig :=
  { default_namespace := "default", contexts := [], services := [] }

/-- Function `resolve_namespace` from `cli.py`: `ns or cfg.default_namespace`,
with Python string truthiness (`none` and `some ""` are falsy). -/
def resolve_namespace (cfg : KToolConfig) (ns : Option String) : String :=
  match ns with
  | none => cfg.default_namespace
  | some s => if s = "" then cfg.default_namespace else s

/-- Function `resolve_service` from `cli.py`: `None` for a falsy tag, otherwise
`cfg.services.get(tag, tag)`. -/
def resolve_service (cfg : KToolConfig) (tag : Option String) : Option String :=
  match tag with
  | none => none
  | some t => if t = "" then none else some (dictGetD cfg.services t t)

/-! ### Pod records -/

/-- A truthy `waiting` sub-state dictionary: `reason` key optional. -/
structure WaitingD where
  reason : Option String
deriving DecidableEq, Repr

/-- A truthy `terminated` sub-state dictionary: `reason` and `exitCode`
keys optional (`exitCode` defaults to 0 in `pod_state`). -/
structure TermD where
  reason : Option String
  exitCode : Option Int
deriving DecidableEq, Repr

/-- The `state` dictionary of a container status: `cs.get("state", {}) or {}`
yields this record, with `none` for an absent/empty/falsy sub-state. -/
structure CState where
  waiting : Option WaitingD
  terminated : Option TermD
deriving DecidableEq, Repr

/-- One entry of `status.containerStatuses`. -/
structure ContainerStatus where
  state : Option CState
deriving DecidableEq, Repr

/-- The `status` dictionary of a pod: `phase` and `containerStatuses`
keys optional, per `status.get("phase", "Unknown")` and
`status.get("containerStatuses", []) or []`. -/
structure PodStatus where
  phase : Option String
  containerStatuses : Option (List ContainerStatus)
deriving DecidableEq, Repr

/-- A pod record: `pod["metadata"]["name"]` is accessed unconditionally,
so the name is a required field; the `status` key is optional
(`pod.get("status", {})`). -/
structure Pod where
  name : String
  status : Option PodStatus
deriving DecidableEq, Repr

/-- Label built for a nonzero-exit terminated container:
`f"{terminated.get('reason','Exit')}(exit={code})"` from `cli.py`. -/
def termLabel (t : TermD) : String :=
  t.reason.getD "Exit" ++ "(exit=" ++ toString (t.exitCode.getD 0) ++ ")"

/-- The loop over `status.get("containerStatuses", []) or []` in
`pod_state` (`cli.py`): returns on a truthy `waiting`, or on a truthy
`terminated` with nonzero exit code; otherwise continues, and falls back
to the phase with `phase not in ("Running", "Succeeded")`. -/
def pod_state_loop (phase : String) : List ContainerStatus → String × Bool
  | [] => (phase, !(phase == "Running" || phase == "Succeeded"))
  | cs :: rest =>
    let st := cs.state.getD { waiting := none, terminated := none }
    match st.waiting with
    | some w => (w.reason.getD "Waiting", true)
    | none =>
      match st.terminated with
      | some t =>
        if t.exitCode.getD 0 ≠ 0 then (termLabel t, true) else pod_state_loop phase rest
      | none => pod_state_loop phase rest

/-- Function `pod_state` from `cli.py`: classify a pod record as
(display label, is-problematic). -/
def pod_state (pod : Pod) : String × Bool :=
  let status := pod.status.getD { phase := none, containerStatuses := none }
  let phase := status.phase.getD "Unknown"
  pod_state_loop phase (status.containerStatuses.getD [])

/-- A container status at which the `pod_state` loop returns: truthy
`waiting`, or truthy `terminated` with nonzero exit code. -/
def csHit (cs : ContainerStatus) : Bool :=
  let st := cs.state.getD { waiting := none, terminated := none }
  st.waiting.isSome ||
    (match st.terminated with
     | some t => t.exitCode.getD 0 != 0
     | none => false)

/-- The label and flag contributed by the container status at which the
scan returns: the waiting reason, or the exit label of a nonzero-exit
terminated container; the `phase` fallback is unreachable for a status
satisfying `csHit` and only completes the match. -/
def hitResult (phase : String) (cs : ContainerStatus) : String × Bool :=
  let st := cs.state.getD { waiting := none, terminated := none }
  match st.waiting with
  | some w => (w.reason.getD "Waiting", true)
  | none =>
    match st.terminated with
    | some t => (termLabel t, true)
    | none => (phase, !(phase == "Running" || phase == "Succeeded"))

/-- Classification policy phrased via first-hit search: scan container
statuses in order for the first one with a truthy `waiting`, or a truthy
`terminated` with nonzero exit code; statuses with neither — including
terminated ones with exit code 0 — are skipped and the scan continues;
when no status hits, the result is the phase with
`phase ∉ {Running, Succeeded}` as the problematic flag. -/
def pod_state_policy (pod : Pod) : String × Bool :=
  let status := pod.status.getD { phase := none, containerStatuses := none }
  let phase := status.phase.getD "Unknown"
  match (status.containerStatuses.getD []).find? csHit with
  | some cs => hitResult phase cs
  | none => (phase, !(phase == "Running" || phase == "Succeeded"))

/-- A container status with a non-empty `waiting` or `terminated`
sub-state (the spec's notion of the "first matching container status"). -/
def csAny (cs : ContainerStatus) : Bool :=
  let st := cs.state.getD { waiting := none, terminated := none }
  st.waiting.isSome || st.terminated.isSome

/-- Classification as worded by the spec (for comparison with the code's
`pod_state`): inspect the first container status with a non-empty
`waiting` or `terminated` sub-state; if waiting, the waiting reason and
`true`; if terminated with nonzero exit code, the exit label and `true`;
otherwise — including when that first status is terminated with exit
code 0 — the pod phase with `phase ∉ {Running, Succeeded}`. -/
def pod_state_spec_policy (pod : Pod) : String × Bool :=
  let status := pod.status.getD { phase := none, containerStatuses := none }
  let phase := status.phase.getD "Unknown"
  let fallback : String × Bool := (phase, !(phase == "Running" || phase == "Succeeded"))
  match (status.containerStatuses.getD []).find? csAny with
  | some cs =>
    let st := cs.state.getD { waiting := none, terminated := none }
    match st.waiting with
    | some w => (w.reason.getD "Waiting", true)
    | none =>
      match st.terminated with
      | some t => if t.exitCode.getD 0 ≠ 0 then (termLabel t, true) else fallback
      | none => fallback
  | none => fallback

/-! ### Argument parser -/

/-- The six-tuple returned by `parse_args` in `cli.py`:
`(service, namespace, search, summary, bad_only, show_command)`.
The source's `namespace` variable is `nspace` here (Lean keyword). -/
structure Parsed where
  service : Option String
  nspace : Option String
  search : Option String
  summary : Bool
  bad_only : Bool
  show_command : Bool
deriving DecidableEq, Repr

/-- The parser state before any token is consumed. -/
def initParsed : Parsed :=
  { service := none, nspace := none, search := none,
    summary := false, bad_only := false, show_command := false }

/-- Python `a.startswith("-")`: the first character is a dash. -/
def startswithDash (s : String) : Bool :=
  match s.toList with
  | [] => false
  | c :: _ => c == '-'

/-- The `while i < len(args)` scan of `parse_args` (`cli.py`), one token
class per branch in source order; `none` models the `typer.BadParameter`
raised when `-n`/`--ns` or `-s`/`--search` has no following value token. -/
def scan : List String → Parsed → Option Parsed
  | [], st => some st
  | a :: rest, st =>
    if a = "--summary" then scan rest { st with summary := true }
    else if a = "--bad" then scan rest { st with bad_only := true }
    else if a = "--show-command" ∨ a = "--showCommand" then
      scan rest { st with show_command := true }
    else if a = "-n" ∨ a = "--ns" then
      match rest with
      | [] => none
      | v :: rest2 => scan rest2 { st with nspace := some v }
    else if a = "-s" ∨ a = "--search" then
      match rest with
      | [] => none
      | v :: rest2 => scan rest2 { st with search := some v }
    else if !startswithDash a && st.service.isNone then
      scan rest { st with service := some a }
    else scan rest st

/-- The leading-`pods` strip of `parse_args`:
`if args and args[0] == "pods": args = args[1:]`. -/
def stripPods (args : List String) : List String :=
  match args with
  | [] => args
  | a :: rest => if a = "pods" then rest else a :: rest

/-- Function `parse_args` from `cli.py`: strip an optional leading `pods` token,
then scan; `none` is the usage-error outcome. -/
def parse_args (argv : List String) : Option Parsed :=
  scan (stripPods argv) initParsed

/-- The sequences on which the scan raises a usage error, phrased from
the spec: walking the token list — a `-n`/`--ns`/`-s`/`--search` token
consumes the following token as its value, every other token consumes
just itself — some reached value-taking token has no following token. -/
def missingValue : List String → Bool
  | [] => false
  | a :: rest =>
    if a = "-n" ∨ a = "--ns" ∨ a = "-s" ∨ a = "--search" then
      match rest with
      | [] => true
      | _ :: rest2 => missingValue rest2
    else missingValue rest

/-! ### Flag units for order-independence -/

/-- One argument unit: a standalone flag, a value-taking flag together
with its value token (`alt` selects between the two spellings of the
flag), or the positional service token. -/
inductive ArgUnit where
  | summaryU : ArgUnit
  | badU : ArgUnit
  | showU : Bool → ArgUnit
  | nsU : Bool → String → ArgUnit
  | searchU : Bool → String → ArgUnit
  | posU : String → ArgUnit
deriving DecidableEq, Repr

/-- The concrete tokens a unit contributes to the command line. -/
def ArgUnit.render : ArgUnit → List String
  | .summaryU => ["--summary"]
  | .badU => ["--bad"]
  | .showU alt => [if alt then "--showCommand" else "--show-command"]
  | .nsU alt v => [if alt then "--ns" else "-n", v]
  | .searchU alt v => [if alt then "--search" else "-s", v]
  | .posU s => [s]

/-- Flatten a list of units into a token sequence. -/
def renderUnits (us : List ArgUnit) : List String :=
  (us.map ArgUnit.render).flatten

/-- A well-formed unit: a positional token does not begin with a dash
(otherwise it would not be a positional) and is not the literal `pods`
(which the parser strips when it comes first). -/
def okU : ArgUnit → Bool
  | .posU s => !startswithDash s && s != "pods"
  | _ => true

/-- The effect of one unit on the parser state, read off from the
corresponding branch of the scan. -/
def applyUnit (st : Parsed) : ArgUnit → Parsed
  | .summaryU => { st with summary := true }
  | .badU => { st with bad_only := true }
  | .showU _ => { st with show_command := true }
  | .nsU _ v => { st with nspace := some v }
  | .searchU _ v => { st with search := some v }
  | .posU s => if st.service.isNone then { st with service := some s } else st

/-- Is this unit a namespace-value unit? -/
def isNsU : ArgUnit → Bool
  | .nsU _ _ => true
  | _ => false

/-- Is this unit a search-value unit? -/
def isSearchU : ArgUnit → Bool
  | .searchU _ _ => true
  | _ => false

/-- Is this unit the positional token? -/
def isPosU : ArgUnit → Bool
  | .posU _ => true
  | _ => false

/-! ### Pod filtering and the pods command -/

/-- Whether a needle occurs as a contiguous sublist of the haystack
(Python's `needle in hay` substring test, on character lists). -/
def containsSub (needle : List Char) : List Char → Bool
  | [] => needle.isEmpty
  | c :: t => needle.isPrefixOf (c :: t) || containsSub needle t

/-- Python `needle in hay` on strings. -/
def substrOf (needle hay : String) : Bool :=
  containsSub needle.toList hay.toList

/-- Python truthiness of an optional string: `None` and `""` are falsy. -/
def strTruthy : Option String → Bool
  | none => false
  | some s => !(s == "")

/-- The per-pod body of the filtering loop in `pods_impl` (`cli.py`):
`if svc and svc not in name: continue` and
`if search and not re.search(search, name): continue`. -/
def keepPod (research : String → String → Bool)
    (svc search : Option String) (nm : String) : Bool :=
  if strTruthy svc && !substrOf (svc.getD "") nm then false
  else if strTruthy search && !research (search.getD "") nm then false
  else true

/-- The `filtered` list built by `pods_impl`. -/
def filterPods (research : String → String → Bool)
    (svc search : Option String) (items : List Pod) : List Pod :=
  items.filter (fun p => keepPod research svc search p.name)

/-- One row of the rendered table: pod name, state label, `"YES"` or
`""` in the Bad column. -/
structure TableRow where
  name : String
  state : String
  bad : String
deriving DecidableEq, Repr

/-- The observable outcome of `pods_impl`: either a printed notice with
a `typer.Exit` code, or the rendered table (title, rows) plus the two
summary lines when `--summary` was given. -/
inductive PodsOutcome where
  | exited : String → Nat → PodsOutcome
  | rendered : String → List TableRow → Option (String × String) → PodsOutcome
deriving DecidableEq, Repr

/-- Python `counts[state] = counts.get(state, 0) + 1` on an insertion-ordered
dictionary modelled as an association list. -/
def bump : List (String × Nat) → String → List (String × Nat)
  | [], k => [(k, 1)]
  | (k2, n) :: rest, k =>
    if k2 == k then (k2, n + 1) :: rest else (k2, n) :: bump rest k

/-- The `Summary:` console line of `pods_impl`. -/
def summaryText (counts : List (String × Nat)) : String :=
  "[bold]Summary:[/bold] "
    ++ String.intercalate ", " (counts.map (fun kv => kv.1 ++ "=" ++ toString kv.2))

/-- The `Total:`/`Problematic:` console line of `pods_impl`. -/
def totalText (total problematic : Nat) : String :=
  "[bold]Total:[/bold] " ++ toString total
    ++ "  [bold]Problematic:[/bold] " ++ toString problematic

/-- Function `pods_impl` from `cli.py`, with the pod list fetched by
`get_pods_json` supplied as `items` and `re.search` as `research`.
The `--show-command` echo is console output only and, like the table
printing itself, is part of the recorded outcome's rendering; the
no-match branch prints the yellow notice and raises `typer.Exit(1)`. -/
def pods_impl (research : String → String → Bool) (cfg : KToolConfig)
    (service nspace search : Option String)
    (summary bad_only : Bool) (items : List Pod) : PodsOutcome :=
  let ns := resolve_namespace cfg nspace
  let svc := resolve_service cfg service
  let filtered := filterPods research svc search items
  if filtered.isEmpty then
    PodsOutcome.exited "[yellow]No pods matched[/yellow]" 1
  else
    let counts := filtered.foldl (fun acc p => bump acc (pod_state p).1) []
    let bad_pods := filtered.filter (fun p => (pod_state p).2)
    let shown := if bad_only then bad_pods else filtered
    let rows := shown.map (fun p =>
      TableRow.mk p.name (pod_state p).1 (if (pod_state p).2 then "YES" else ""))
    PodsOutcome.rendered ("Pods in " ++ ns) rows
      (if summary then some (summaryText counts, totalText filtered.length bad_pods.length)
       else none)

/-! ## Lemmas about the pod classifier -/

/-- The classifier loop agrees with a first-hit search for `csHit`. -/
theorem pod_state_loop_eq_find (phase : String) (l : List ContainerStatus) :
    pod_state_loop phase l =
      match l.find? csHit with
      | some cs => hitResult phase cs
      | none => (phase, !(phase == "Running" || phase == "Succeeded")) := by
  induction l with
  | nil => rfl
  | cons cs rest ih =>
    obtain ⟨os⟩ := cs
    rcases os with _ | ⟨ow, ot⟩
    · rw [List.find?_cons_of_neg _ (by simp [csHit])]
      simpa [pod_state_loop] using ih
    · rcases ow with _ | w
      · rcases ot with _ | t
        · rw [List.find?_cons_of_neg _ (by simp [csHit])]
          simpa [pod_state_loop] using ih
        · by_cases he : t.exitCode.getD 0 = 0
          · rw [List.find?_cons_of_neg _ (by simp [csHit, he])]
            simpa [pod_state_loop, he] using ih
          · rw [List.find?_cons_of_pos _ (by simp [csHit, he])]
            simp [pod_state_loop, hitResult, he]
      · rw [List.find?_cons_of_pos _ (by simp [csHit])]
        simp [pod_state_loop, hitResult]

/-- Claim C1 (amended): the classifier returns at the first container
status whose waiting sub-state is non-empty or whose terminated
sub-state is non-empty with nonzero exit code; statuses with neither —
in particular terminated ones with exit code 0 — are skipped and the
scan continues to later statuses; when no status qualifies the result is
the pod phase with problematic = (phase not in {Running, Succeeded}). -/
theorem pod_state_eq_first_hit_policy (p : Pod) : pod_state p = pod_state_policy p := by
  unfold pod_state pod_state_policy
  exact pod_state_loop_eq_find _ _

/-- Claim C1 (counterexample): on a pod whose first container status is
terminated with exit code 0 and whose second is waiting, the code
consults the second status and returns its waiting reason, while the
claimed policy — which consults only the first status with a non-empty
waiting or terminated sub-state — returns the pod phase. -/
theorem pod_state_first_match_cex :
    pod_state
      { name := "p",
        status := some
          { phase := some "Running",
            containerStatuses := some
              [ { state := some { waiting := none,
                                  terminated := some { reason := some "Completed",
                                                       exitCode := some 0 } } },
                { state := some { waiting := some { reason := some "CrashLoopBackOff" },
                                  terminated := none } } ] } }
      = ("CrashLoopBackOff", true)
    ∧ pod_state_spec_policy
      { name := "p",
        status := some
          { phase := some "Running",
            containerStatuses := some
              [ { state := some { waiting := none,
                                  terminated := some { reason := some "Completed",
                                                       exitCode := some 0 } } },
                { state := some { waiting := some { reason := some "CrashLoopBackOff" },
                                  terminated := none } } ] } }
      = ("Running", false)
    ∧ ("CrashLoopBackOff", true) ≠ (("Running", false) : String × Bool) := by
  decide

/-- A container status the classifier loop passes over without looking
at later fields: its waiting and terminated sub-states are both falsy. -/
def csQuiet (cs : ContainerStatus) : Prop :=
  (cs.state.getD { waiting := none, terminated := none }).waiting = none ∧
  (cs.state.getD { waiting := none, terminated := none }).terminated = none

/-- Statuses with falsy waiting and terminated sub-states are skipped. -/
theorem pod_state_loop_quiet_append (phase : String) (pre rest : List ContainerStatus)
    (hpre : ∀ cs ∈ pre, csQuiet cs) :
    pod_state_loop phase (pre ++ rest) = pod_state_loop phase rest := by
  induction pre with
  | nil => rfl
  | cons cs pre ih =>
    obtain ⟨hw, ht⟩ := hpre cs (List.mem_cons_self cs pre)
    rw [List.cons_append]
    rw [show pod_state_loop phase (cs :: (pre ++ rest)) = pod_state_loop phase (pre ++ rest) from
      by simp [pod_state_loop, hw, ht]]
    exact ih (fun c hc => hpre c (List.mem_cons_of_mem _ hc))

/-- Claim C8: for every pod whose first matching container status is
terminated with exitCode = 1 and reason = "Error" — any earlier statuses
having empty waiting and terminated sub-states — classification yields
the label "Error(exit=1)" with problematic = true. -/
theorem pod_state_terminated_error_exit_one (nm : String) (ophase : Option String)
    (pre post : List ContainerStatus) (hpre : ∀ cs ∈ pre, csQuiet cs) :
    pod_state
      { name := nm,
        status := some
          { phase := ophase,
            containerStatuses := some
              (pre ++ { state := some { waiting := none,
                                        terminated := some { reason := some "Error",
                                                             exitCode := some 1 } } } :: post) } }
      = ("Error(exit=1)", true) := by
  unfold pod_state
  simp only [Option.getD_some]
  rw [pod_state_loop_quiet_append _ pre _ hpre]
  simp [pod_state_loop, termLabel]
  decide

/-- Witness for claim C8 at a concrete pod with a single terminated
container status. -/
theorem pod_state_terminated_error_exit_one_witness :
    pod_state
      { name := "p",
        status := some
          { phase := some "Running",
            containerStatuses := some
              ([] ++ { state := some { waiting := none,
                                       terminated := some { reason := some "Error",
                                                            exitCode := some 1 } } } :: []) } }
      = ("Error(exit=1)", true) :=
  pod_state_terminated_error_exit_one "p" (some "Running") [] []
    (fun cs hcs => absurd hcs (List.not_mem_nil cs))

/-- Claim C10 (counterexample): the claim covers every pod lacking a
status object, *or* a phase field, *or* container statuses; but a pod
whose status merely lacks container statuses keeps its own phase — with
phase "Running" the code yields ("Running", false), not
("Unknown", true) — and a pod lacking only the phase field can still be
classified from a container status, here ("ImagePullBackOff", true). -/
theorem pod_state_defaults_cex :
    pod_state { name := "p",
                status := some { phase := some "Running", containerStatuses := none } }
      = ("Running", false)
    ∧ pod_state
        { name := "p",
          status := some
            { phase := none,
              containerStatuses := some
                [ { state := some { waiting := some { reason := some "ImagePullBackOff" },
                                    terminated := none } } ] } }
      = ("ImagePullBackOff", true)
    ∧ ("Running", false) ≠ (("Unknown", true) : String × Bool)
    ∧ ("ImagePullBackOff", true) ≠ (("Unknown", true) : String × Bool) := by
  decide

/-- Claim C10 (amended): for every pod record lacking a status object,
or whose status lacks both the phase field and the container status
list, classification is still defined and yields the label "Unknown"
(the default phase) with problematic = true, since "Unknown" is not in
{Running, Succeeded}. -/
theorem pod_state_defaults (p : Pod)
    (h : p.status = none ∨
      ∃ s, p.status = some s ∧ s.phase = none ∧ s.containerStatuses = none) :
    pod_state p = ("Unknown", true) := by
  rcases h with h | ⟨s, hs, hp, hc⟩
  · simp [pod_state, h, pod_state_loop]
  · simp [pod_state, hs, hp, hc, pod_state_loop]

/-- Witness for claim C10 at a pod with no status object. -/
theorem pod_state_defaults_witness :
    pod_state { name := "w", status := none } = ("Unknown", true) :=
  pod_state_defaults { name := "w", status := none } (Or.inl rfl)

/-! ## Configuration defaults -/

/-- Claim C5: with the config file absent, the loaded configuration has
default namespace "default" and empty context and service alias
mappings, and service-alias resolution is the identity on every
(non-empty, hence truthy) service tag. The empty string is not a
service tag: `resolve_service` treats falsy input (`None` or `""`) as
"no alias given". -/
theorem default_config_identity :
    load_config_absent.default_namespace = "default"
    ∧ load_config_absent.contexts = []
    ∧ load_config_absent.services = []
    ∧ ∀ tag : String, tag ≠ "" →
        resolve_service load_config_absent (some tag) = some tag := by
  refine ⟨rfl, rfl, rfl, fun tag h => ?_⟩
  simp [resolve_service, load_config_absent, dictGetD, h]

/-- Witness for claim C5 at the concrete tag "api". -/
theorem default_config_identity_witness :
    resolve_service load_config_absent (some "api") = some "api" :=
  default_config_identity.2.2.2 "api" (by decide)

/-! ## Lemmas about the argument parser -/

/-- Token lists not starting with the literal `pods` are unchanged by
the strip. -/
theorem stripPods_eq_self {l : List String} (h : l.head? ≠ some "pods") :
    stripPods l = l := by
  cases l with
  | nil => rfl
  | cons a t =>
    have ha : a ≠ "pods" := fun he => h (by simp [he])
    simp [stripPods, ha]

/-- Claim C2 (counterexample): for the token sequence
`["pods", "pods"]` — whose first token is the literal `pods` — parsing
captures the second `pods` as the service, while parsing the sequence
with the leading token removed strips again and captures nothing. -/
theorem parse_args_strip_pods_cex :
    parse_args ["pods", "pods"]
      = some { service := some "pods", nspace := none, search := none,
               summary := false, bad_only := false, show_command := false }
    ∧ parse_args ["pods"]
      = some { service := none, nspace := none, search := none,
               summary := false, bad_only := false, show_command := false }
    ∧ parse_args ["pods", "pods"] ≠ parse_args ["pods"] := by
  decide

/-- Claim C2 (amended): for every token sequence whose first token is
the literal `pods` and whose second token, if any, is not itself the
literal `pods`, parsing yields the same six-tuple as parsing the
sequence with the leading `pods` token removed. -/
theorem parse_args_strip_pods (rest : List String) (h : rest.head? ≠ some "pods") :
    parse_args ("pods" :: rest) = parse_args rest := by
  unfold parse_args
  rw [show stripPods ("pods" :: rest) = rest from by simp [stripPods],
      stripPods_eq_self h]

/-- Witness for claim C2 on the token sequence `["pods", "api"]`. -/
theorem parse_args_strip_pods_witness :
    parse_args ["pods", "api"] = parse_args ["api"] :=
  parse_args_strip_pods ["api"] (by decide)

/-- Claim C9: whenever the scan reaches a `-n`/`--ns` or `-s`/`--search`
token with at least one following token, it consumes that next token as
the flag's value unconditionally — the scan continuation from any state
shows this for every reached occurrence — and in particular parsing
`["-n", "--summary"]` sets the namespace to `"--summary"` and leaves
the summary flag false. -/
theorem scan_consumes_next_token_as_value :
    (∀ (v : String) (rest : List String) (st : Parsed),
        scan ("-n" :: v :: rest) st = scan rest { st with nspace := some v })
    ∧ (∀ (v : String) (rest : List String) (st : Parsed),
        scan ("--ns" :: v :: rest) st = scan rest { st with nspace := some v })
    ∧ (∀ (v : String) (rest : List String) (st : Parsed),
        scan ("-s" :: v :: rest) st = scan rest { st with search := some v })
    ∧ (∀ (v : String) (rest : List String) (st : Parsed),
        scan ("--search" :: v :: rest) st = scan rest { st with search := some v })
    ∧ parse_args ["-n", "--summary"]
        = some { service := none, nspace := some "--summary", search := none,
                 summary := false, bad_only := false, show_command := false } := by
  refine ⟨?_, ?_, ?_, ?_, by decide⟩ <;> (intro v rest st; simp [scan])

/-- The scan fails exactly on the lists accepted by `missingValue`,
from any starting state. -/
theorem scan_isNone_eq_missingValue (n : Nat) :
    ∀ l : List String, l.length ≤ n → ∀ st : Parsed,
      (scan l st).isNone = missingValue l := by
  induction n with
  | zero =>
    intro l hl st
    rw [List.eq_nil_of_length_eq_zero (Nat.le_zero.mp hl)]
    rfl
  | succ n ih =>
    intro l hl st
    match l with
    | [] => rfl
    | [a] =>
      by_cases h4 : a = "-n" ∨ a = "--ns"
      · rcases h4 with rfl | rfl <;> simp [scan, missingValue]
      by_cases h5 : a = "-s" ∨ a = "--search"
      · rcases h5 with rfl | rfl <;> simp [scan, missingValue]
      · push_neg at h4 h5
        rw [show missingValue [a] = false from
              by simp [missingValue, h4.1, h4.2, h5.1, h5.2]]
        simp only [scan]
        split_ifs <;> simp_all
    | a :: b :: rest2 =>
      simp only [List.length_cons, Nat.add_le_add_iff_right] at hl
      have hbr : (b :: rest2).length ≤ n := by simp only [List.length_cons]; omega
      have hr2 : rest2.length ≤ n := by simp only [List.length_cons] at hbr; omega
      by_cases h1 : a = "--summary"
      · subst h1
        rw [show scan ("--summary" :: b :: rest2) st
              = scan (b :: rest2) { st with summary := true } from by simp [scan]]
        rw [show missingValue ("--summary" :: b :: rest2) = missingValue (b :: rest2) from
              by simp [missingValue]]
        exact ih (b :: rest2) hbr _
      by_cases h2 : a = "--bad"
      · subst h2
        rw [show scan ("--bad" :: b :: rest2) st
              = scan (b :: rest2) { st with bad_only := true } from by simp [scan]]
        rw [show missingValue ("--bad" :: b :: rest2) = missingValue (b :: rest2) from
              by simp [missingValue]]
        exact ih (b :: rest2) hbr _
      by_cases h3 : a = "--show-command" ∨ a = "--showCommand"
      · rcases h3 with rfl | rfl
        · rw [show scan ("--show-command" :: b :: rest2) st
                = scan (b :: rest2) { st with show_command := true } from by simp [scan]]
          rw [show missingValue ("--show-command" :: b :: rest2)
                = missingValue (b :: rest2) from by simp [missingValue]]
          exact ih (b :: rest2) hbr _
        · rw [show scan ("--showCommand" :: b :: rest2) st
                = scan (b :: rest2) { st with show_command := true } from by simp [scan]]
          rw [show missingValue ("--showCommand" :: b :: rest2)
                = missingValue (b :: rest2) from by simp [missingValue]]
          exact ih (b :: rest2) hbr _
      by_cases h4 : a = "-n" ∨ a = "--ns"
      · rcases h4 with rfl | rfl
        · rw [show scan ("-n" :: b :: rest2) st
                = scan rest2 { st with nspace := some b } from by simp [scan]]
          rw [show missingValue ("-n" :: b :: rest2) = missingValue rest2 from
                by simp [missingValue]]
          exact ih rest2 hr2 _
        · rw [show scan ("--ns" :: b :: rest2) st
                = scan rest2 { st with nspace := some b } from by simp [scan]]
          rw [show missingValue ("--ns" :: b :: rest2) = missingValue rest2 from
                by simp [missingValue]]
          exact ih rest2 hr2 _
      by_cases h5 : a = "-s" ∨ a = "--search"
      · rcases h5 with rfl | rfl
        · rw [show scan ("-s" :: b :: rest2) st
                = scan rest2 { st with search := some b } from by simp [scan]]
          rw [show missingValue ("-s" :: b :: rest2) = missingValue rest2 from
                by simp [missingValue]]
          exact ih rest2 hr2 _
        · rw [show scan ("--search" :: b :: rest2) st
                = scan rest2 { st with search := some b } from by simp [scan]]
          rw [show missingValue ("--search" :: b :: rest2) = missingValue rest2 from
                by simp [missingValue]]
          exact ih rest2 hr2 _
      · push_neg at h4 h5
        rw [show missingValue (a :: b :: rest2) = missingValue (b :: rest2) from
              by simp [missingValue, h4.1, h4.2, h5.1, h5.2]]
        by_cases h6 : (!startswithDash a && st.service.isNone) = true
        · rw [show scan (a :: b :: rest2) st
                = scan (b :: rest2) { st with service := some a } from
                by simp [scan, h1, h2, h3, h4.1, h4.2, h5.1, h5.2, h6]]
          exact ih (b :: rest2) hbr _
        · rw [show scan (a :: b :: rest2) st = scan (b :: rest2) st from
                by simp [scan, h1, h2, h3, h4.1, h4.2, h5.1, h5.2, h6]]
          exact ih (b :: rest2) hbr _

/-- Claim C6: `parse_args` raises a usage error exactly when the scan,
walking the stripped token list — a `-n`/`--ns`/`-s`/`--search` token
consuming the following token as its value, every other token consuming
just itself — reaches a value-taking token with no following token; all
other token sequences parse without error (unrecognized tokens are
silently skipped). -/
theorem parse_args_error_iff_missing_value (argv : List String) :
    parse_args argv = none ↔ missingValue (stripPods argv) = true := by
  rw [← Option.isNone_iff_eq_none]
  unfold parse_args
  rw [scan_isNone_eq_missingValue (stripPods argv).length (stripPods argv) le_rfl initParsed]

/-! ## Order-independence of the parser -/

/-- A token that does not start with a dash is none of the flag
literals. -/
theorem ne_flag_of_no_dash {s : String} (h : startswithDash s = false) :
    s ≠ "--summary" ∧ s ≠ "--bad" ∧ s ≠ "--show-command" ∧ s ≠ "--showCommand"
    ∧ s ≠ "-n" ∧ s ≠ "--ns" ∧ s ≠ "-s" ∧ s ≠ "--search" := by
  refine ⟨?_, ?_, ?_, ?_, ?_, ?_, ?_, ?_⟩ <;>
    (intro he; subst he; exact absurd h (by decide))

/-- Scanning the tokens of one well-formed unit followed by anything
applies that unit's effect to the state and continues. -/
theorem scan_append_unit (u : ArgUnit) (hu : okU u = true)
    (rest : List String) (st : Parsed) :
    scan (u.render ++ rest) st = scan rest (applyUnit st u) := by
  cases u with
  | summaryU =>
    cases rest <;> simp [ArgUnit.render, scan, applyUnit]
  | badU =>
    cases rest <;> simp [ArgUnit.render, scan, applyUnit]
  | showU alt =>
    cases alt <;> cases rest <;> simp [ArgUnit.render, scan, applyUnit]
  | nsU alt v =>
    cases alt <;> simp [ArgUnit.render, scan, applyUnit]
  | searchU alt v =>
    cases alt <;> simp [ArgUnit.render, scan, applyUnit]
  | posU s =>
    obtain ⟨h1, h2⟩ : startswithDash s = false ∧ s ≠ "pods" := by
      simpa [okU] using hu
    obtain ⟨n1, n2, n3, n4, n5, n6, n7, n8⟩ := ne_flag_of_no_dash h1
    cases hsvc : st.service.isNone <;>
      cases rest <;>
        simp [ArgUnit.render, scan, applyUnit, n1, n2, n3, n4, n5, n6, n7, n8, h1, hsvc]

/-- Scanning a rendered list of well-formed units from any state never
errors and folds the units' effects over the state. -/
theorem scan_renderUnits (us : List ArgUnit) (hok : ∀ u ∈ us, okU u = true)
    (st : Parsed) :
    scan (renderUnits us) st = some (us.foldl applyUnit st) := by
  induction us generalizing st with
  | nil => rfl
  | cons u us ih =>
    have h1 := hok u (List.mem_cons_self u us)
    have h2 : ∀ w ∈ us, okU w = true := fun w hw => hok w (List.mem_cons_of_mem _ hw)
    rw [show renderUnits (u :: us) = u.render ++ renderUnits us from
          by simp [renderUnits]]
    rw [scan_append_unit u h1 _ st, ih h2]
    rfl

/-- A rendered list of well-formed units never starts with the literal
`pods`, so the strip leaves it unchanged. -/
theorem stripPods_renderUnits (us : List ArgUnit) (hok : ∀ u ∈ us, okU u = true) :
    stripPods (renderUnits us) = renderUnits us := by
  apply stripPods_eq_self
  cases us with
  | nil => simp [renderUnits]
  | cons u us =>
    have hu := hok u (List.mem_cons_self u us)
    rw [show renderUnits (u :: us) = u.render ++ renderUnits us from
          by simp [renderUnits]]
    cases u with
    | summaryU => simp [ArgUnit.render]
    | badU => simp [ArgUnit.render]
    | showU alt => cases alt <;> simp [ArgUnit.render]
    | nsU alt v => cases alt <;> simp [ArgUnit.render]
    | searchU alt v => cases alt <;> simp [ArgUnit.render]
    | posU s =>
      have h2 : s ≠ "pods" := by
        have := by simpa [okU] using hu
        exact this.2
      simp [ArgUnit.render, h2]

/-- Two distinct members both satisfying a predicate force its count
above one. -/
theorem two_le_countP {α : Type} [DecidableEq α] (p : α → Bool) {l : List α}
    {x y : α} (hx : x ∈ l) (hy : y ∈ l) (hne : x ≠ y)
    (hpx : p x = true) (hpy : p y = true) : 2 ≤ l.countP p := by
  have hperm := List.perm_cons_erase hx
  rw [hperm.countP_eq]
  rw [List.countP_cons]
  have hy2 : y ∈ l.erase x :=
    (List.mem_erase_of_ne (fun he => hne he.symm)).mpr hy
  have hpos : 0 < (l.erase x).countP p :=
    List.countP_pos_iff.mpr ⟨y, hy2, hpy⟩
  rw [hpx]
  simp only [if_true]
  omega

/-- Effects of two units commute unless they are two namespace units,
two search units, or two positional units that differ. -/
theorem applyUnit_comm (x y : ArgUnit)
    (h : x = y ∨ ((isNsU x && isNsU y) = false ∧ (isSearchU x && isSearchU y) = false
          ∧ (isPosU x && isPosU y) = false))
    (z : Parsed) :
    applyUnit (applyUnit z x) y = applyUnit (applyUnit z y) x := by
  rcases h with rfl | ⟨h1, h2, h3⟩
  · rfl
  · cases x <;> cases y <;>
      simp_all [isNsU, isSearchU, isPosU, applyUnit] <;>
      (cases hz : z.service <;> simp [applyUnit, hz])

/-- Claim C3 (amended): for every token sequence composed of well-formed
flag units and at most one positional token — the positional not
starting with a dash and not the literal `pods`, and at most one
namespace unit and one search unit present — every permutation of those
units parses to the same six-tuple. -/
theorem parse_args_units_perm (us1 us2 : List ArgUnit) (hperm : us1.Perm us2)
    (hok : ∀ u ∈ us1, okU u = true)
    (hns : us1.countP isNsU ≤ 1) (hse : us1.countP isSearchU ≤ 1)
    (hpos : us1.countP isPosU ≤ 1) :
    parse_args (renderUnits us1) = parse_args (renderUnits us2) := by
  have hok2 : ∀ u ∈ us2, okU u = true := fun u hu => hok u (hperm.mem_iff.mpr hu)
  unfold parse_args
  rw [stripPods_renderUnits us1 hok, stripPods_renderUnits us2 hok2,
      scan_renderUnits us1 hok initParsed, scan_renderUnits us2 hok2 initParsed]
  refine congrArg some (hperm.foldl_eq' ?_ initParsed)
  intro x hx y hy z
  by_cases hxy : x = y
  · subst hxy; rfl
  · have key : ∀ p : ArgUnit → Bool, us1.countP p ≤ 1 → (p x && p y) = false := by
      intro p hp
      by_contra hb
      obtain ⟨hbx, hby⟩ : p x = true ∧ p y = true := by
        simpa [Bool.and_eq_true] using (Bool.not_eq_false _).mp hb
      exact absurd (two_le_countP p hx hy hxy hbx hby) (by omega)
    exact applyUnit_comm x y (Or.inr ⟨key isNsU hns, key isSearchU hse, key isPosU hpos⟩) z

/-- Witness for claim C3: swapping a positional unit with the summary
flag preserves the parse. -/
theorem parse_args_units_perm_witness :
    parse_args (renderUnits [ArgUnit.posU "api", ArgUnit.summaryU])
      = parse_args (renderUnits [ArgUnit.summaryU, ArgUnit.posU "api"]) :=
  parse_args_units_perm [ArgUnit.posU "api", ArgUnit.summaryU]
    [ArgUnit.summaryU, ArgUnit.posU "api"]
    (List.Perm.swap ArgUnit.summaryU (ArgUnit.posU "api") [])
    (by decide) (by decide) (by decide) (by decide)

/-- Claim C3 (counterexample): the units "positional `pods`" and
"flag `--summary`" render, in their two orders, to the token sequences
`["pods", "--summary"]` and `["--summary", "pods"]`, which parse to
different six-tuples (the former strips `pods` and has no service, the
latter captures `pods` as the service); likewise two namespace units
`-n a` and `-n b` give order-dependent results. -/
theorem parse_args_units_perm_cex :
    renderUnits [ArgUnit.posU "pods", ArgUnit.summaryU] = ["pods", "--summary"]
    ∧ renderUnits [ArgUnit.summaryU, ArgUnit.posU "pods"] = ["--summary", "pods"]
    ∧ List.Perm [ArgUnit.posU "pods", ArgUnit.summaryU]
        [ArgUnit.summaryU, ArgUnit.posU "pods"]
    ∧ parse_args ["pods", "--summary"] ≠ parse_args ["--summary", "pods"]
    ∧ renderUnits [ArgUnit.nsU false "a", ArgUnit.nsU false "b"] = ["-n", "a", "-n", "b"]
    ∧ List.Perm [ArgUnit.nsU false "a", ArgUnit.nsU false "b"]
        [ArgUnit.nsU false "b", ArgUnit.nsU false "a"]
    ∧ parse_args ["-n", "a", "-n", "b"] ≠ parse_args ["-n", "b", "-n", "a"] := by
  refine ⟨rfl, rfl, by decide, by decide, rfl, by decide, by decide⟩

/-! ## Pod filtering -/

/-- The empty string is a substring of every string. -/
theorem substrOf_empty (hay : String) : substrOf "" hay = true := by
  unfold substrOf
  cases hl : hay.toList <;> simp [containsSub, List.isPrefixOf]

/-- The per-pod filter condition holds exactly when the name passes the
substring test for a truthy service value and the search test for a
truthy pattern; the degenerate `some ""` service value is covered
because the empty string is a substring of everything, while an empty
search pattern is excluded (Python skips the check for it without
consulting `re.search`). -/
theorem keepPod_iff (research : String → String → Bool)
    (svc search : Option String) (nm : String) (hp : search ≠ some "") :
    keepPod research svc search nm = true ↔
      ((∀ s, svc = some s → substrOf s nm = true) ∧
       (∀ q, search = some q → research q nm = true)) := by
  cases svc with
  | none =>
    cases search with
    | none => simp [keepPod, strTruthy]
    | some q =>
      have hq : ¬(q == "") = true := by
        simpa using fun he => hp (by simp [he])
      cases hr : research q nm <;>
        simp [keepPod, strTruthy, hq, hr]
  | some s =>
    by_cases hs : s = ""
    · subst hs
      cases search with
      | none => simp [keepPod, strTruthy, substrOf_empty]
      | some q =>
        have hq : ¬(q == "") = true := by
          simpa using fun he => hp (by simp [he])
        cases hr : research q nm <;>
          simp [keepPod, strTruthy, hq, hr, substrOf_empty]
    · have hs2 : ¬(s == "") = true := by simpa using hs
      cases search with
      | none =>
        cases hsub : substrOf s nm <;>
          simp [keepPod, strTruthy, hs2, hsub]
      | some q =>
        have hq : ¬(q == "") = true := by
          simpa using fun he => hp (by simp [he])
        cases hsub : substrOf s nm <;>
          cases hr : research q nm <;>
            simp [keepPod, strTruthy, hs2, hq, hsub, hr]

/-- Claim C4: a pod is retained by the filter of `pods_impl` if and only
if it is in the input list and, when a service alias resolves to a
substring, its name contains that substring, and, when a search pattern
is given, the regular-expression search of the pattern against its name
succeeds; with no filters every pod is retained. The empty-string
search pattern is excluded: Python truthiness makes the code skip the
check for it, without consulting `re.search`. -/
theorem filterPods_mem_iff (research : String → String → Bool)
    (cfg : KToolConfig) (service search : Option String)
    (items : List Pod) (p : Pod) (hp : search ≠ some "") :
    p ∈ filterPods research (resolve_service cfg service) search items ↔
      (p ∈ items
        ∧ (∀ s, resolve_service cfg service = some s → substrOf s p.name = true)
        ∧ (∀ q, search = some q → research q p.name = true)) := by
  unfold filterPods
  rw [List.mem_filter, keepPod_iff research _ _ _ hp]

/-- Witness for claim C4 at a concrete pod list, service alias and
pattern, with substring search standing in for `re.search`. -/
theorem filterPods_mem_iff_witness :
    { name := "api-1-xyz", status := none }
        ∈ filterPods (fun pat nm => substrOf pat nm)
            (resolve_service load_config_absent (some "api")) (some "api-1")
            [{ name := "api-1-xyz", status := none }] ↔
      (({ name := "api-1-xyz", status := none } : Pod)
          ∈ [({ name := "api-1-xyz", status := none } : Pod)]
        ∧ (∀ s, resolve_service load_config_absent (some "api") = some s →
            substrOf s (Pod.name { name := "api-1-xyz", status := none }) = true)
        ∧ (∀ q, (some "api-1" : Option String) = some q →
            substrOf q (Pod.name { name := "api-1-xyz", status := none }) = true)) :=
  filterPods_mem_iff (fun pat nm => substrOf pat nm) load_config_absent
    (some "api") (some "api-1") [{ name := "api-1-xyz", status := none }]
    { name := "api-1-xyz", status := none } (by decide)

/-- Claim C7: whenever zero pods pass the filter, `pods_impl` prints the
no-match notice and exits with code 1, rendering no table. -/
theorem pods_impl_no_match (research : String → String → Bool)
    (cfg : KToolConfig) (service nspace search : Option String)
    (summary bad_only : Bool) (items : List Pod)
    (h : filterPods research (resolve_service cfg service) search items = []) :
    pods_impl research cfg service nspace search summary bad_only items
      = PodsOutcome.exited "[yellow]No pods matched[/yellow]" 1 := by
  simp [pods_impl, h]

/-- Witness for claim C7 on the empty pod list. -/
theorem pods_impl_no_match_witness :
    pods_impl (fun _ _ => true) load_config_absent none none none false false []
      = PodsOutcome.exited "[yellow]No pods matched[/yellow]" 1 :=
  pods_impl_no_match (fun _ _ => true) load_config_absent none none none
    false false [] rfl

end Ktool
